import Mathlib

/-!
Shallow embedding of the fast-api-cinema backend (movie catalog, per-user
cart, checkout into orders).  The HTTP route handlers are taken from
`src/app/cart/routers.py`, `src/app/movies/routers.py` and `src/main.py`;
the service layer (`app.cart.services`, `app.movies.services`) and the ORM
models are not part of the sources, so those operations are modelled from
the specification, as noted on each definition.
-/

namespace Cinema

/-- A movie row: id, name, IMDB rating, price, release year (spec section 3).
Ratings and prices are modelled as rationals. -/
structure Movie where
  id : Nat
  name : String
  imdb : ℚ
  price : ℚ
  year : Int
deriving DecidableEq, Repr

/-- A cart item: a (user_id, movie_id) pair (spec section 3). -/
structure CartItem where
  userId : Nat
  movieId : Nat
deriving DecidableEq, Repr

/-- An order: snapshot of the purchased movie references (spec section 3). -/
structure Order where
  id : Nat
  userId : Nat
  movieIds : List Nat
deriving DecidableEq, Repr

/-- A reaction is a like or a dislike (spec section 3). -/
inductive ReactionType
  | like
  | dislike
deriving DecidableEq, Repr

/-- A reaction row, many-to-one with Movie (spec section 3). -/
structure Reaction where
  movieId : Nat
  rtype : ReactionType
deriving DecidableEq, Repr

/-- The relational store: movies, cart items, orders and reactions, with
auto-increment counters for movie and order primary keys.  Lists keep
insertion order, as the underlying tables do for id-ordered reads. -/
structure DB where
  movies : List Movie
  cartItems : List CartItem
  orders : List Order
  reactions : List Reaction
  nextMovieId : Nat
  nextOrderId : Nat
deriving Repr

/-- Error taxonomy of spec section 7: NotFound (referenced entity absent)
and InvalidState (operation illegal given current state). -/
inductive ApiError
  | notFound
  | invalidState
deriving DecidableEq, Repr

/-- HTTP status that each error surfaces as (spec sections 6 and 7). -/
def statusOfError : ApiError → Nat
  | .notFound => 404
  | .invalidState => 400

/-- The predicate a cart row must satisfy to be user `u`'s row for movie
`mid` (the WHERE clause used by the cart queries). -/
def isItem (u mid : Nat) (ci : CartItem) : Bool :=
  ci.userId == u && ci.movieId == mid

/-- Lookup of a movie by primary key. -/
def findMovie (db : DB) (mid : Nat) : Option Movie :=
  db.movies.find? (fun m => m.id == mid)

/-- Modelled from the spec: `add_item` of `app/cart/services.py` (absent from
the sources; only its caller `add_item_to_cart` in `src/app/cart/routers.py`
is present).  Spec section 4.1: inserts a CartItem; fails with NotFound if
movie_id does not reference an existing Movie; returns the created item.
Spec section 3 requires uniqueness per (user, movie) and flags duplicate
adds as idempotent-or-rejected; the interface table (section 6) lists 404 as
the only failure, so the idempotent reading is taken: a duplicate add
returns the existing row unchanged. -/
def addItemToCart (db : DB) (u mid : Nat) : Except ApiError (CartItem × DB) :=
  match findMovie db mid with
  | none => .error .notFound
  | some _ =>
      let item : CartItem := ⟨u, mid⟩
      if db.cartItems.any (isItem u mid) then
        .ok (item, db)
      else
        .ok (item, { db with cartItems := db.cartItems ++ [item] })

/-- Modelled from the spec: `get_cart` of `app/cart/services.py` (absent from
the sources).  Spec section 4.1: returns the current CartItems of the user. -/
def getCart (db : DB) (u : Nat) : List CartItem :=
  db.cartItems.filter (fun ci => ci.userId == u)

/-- Modelled from the spec: `remove_item` of `app/cart/services.py` (absent
from the sources).  Spec section 4.1: deletes the matching CartItem; fails
with NotFound if absent. -/
def removeItemFromCart (db : DB) (u mid : Nat) : Except ApiError DB :=
  if db.cartItems.any (isItem u mid) then
    .ok { db with cartItems := db.cartItems.filter (fun ci => !(isItem u mid ci)) }
  else
    .error .notFound

/-- Modelled from the spec: `checkout` of `app/cart/services.py` (absent from
the sources).  Spec section 4.1: fails with InvalidState if the cart is
empty; otherwise atomically creates one Order referencing all current
CartItems and deletes those CartItems. -/
def checkoutCart (db : DB) (u : Nat) : Except ApiError DB :=
  let items := getCart db u
  if items.isEmpty then
    .error .invalidState
  else
    let order : Order := ⟨db.nextOrderId, u, items.map CartItem.movieId⟩
    .ok { db with
          cartItems := db.cartItems.filter (fun ci => !(ci.userId == u)),
          orders := db.orders ++ [order],
          nextOrderId := db.nextOrderId + 1 }

/-- Modelled from the spec: `clear` of `app/cart/services.py` (absent from
the sources).  Spec section 4.1: deletes all CartItems of the user
unconditionally. -/
def clearCart (db : DB) (u : Nat) : DB :=
  { db with cartItems := db.cartItems.filter (fun ci => !(ci.userId == u)) }

/-- Route handler `add_item_to_cart` of `src/app/cart/routers.py`
(POST /cart/items/): delegates to the service; a NotFound error surfaces as
HTTP 404, success as HTTP 200 with the created item. -/
def addItemEndpoint (db : DB) (u mid : Nat) : Nat × Option CartItem × DB :=
  match addItemToCart db u mid with
  | .error e => (statusOfError e, none, db)
  | .ok (item, db') => (200, some item, db')

/-- Route handler `remove_item_from_cart` of `src/app/cart/routers.py`
(DELETE /cart/items/{movie_id}): 204 on success, 404 if absent. -/
def removeItemEndpoint (db : DB) (u mid : Nat) : Nat × DB :=
  match removeItemFromCart db u mid with
  | .error e => (statusOfError e, db)
  | .ok db' => (204, db')

/-- Route handler `checkout_cart` of `src/app/cart/routers.py`
(POST /cart/checkout): 200 with a message body on success. -/
def checkoutEndpoint (db : DB) (u : Nat) : Nat × Option String × DB :=
  match checkoutCart db u with
  | .error e => (statusOfError e, none, db)
  | .ok db' => (200, some "Purchase successful", db')

/-- Bool test of whether the character list `p` occurs at the start of `l`. -/
def startsWithL : List Char → List Char → Bool
  | [], _ => true
  | _ :: _, [] => false
  | p :: ps, c :: cs => p == c && startsWithL ps cs

/-- Bool test of whether the character list `p` occurs inside `l`. -/
def containsL (p : List Char) : List Char → Bool
  | [] => p.isEmpty
  | c :: cs => startsWithL p (c :: cs) || containsL p cs

/-- Substring test on strings: `pat` occurs inside `s` (the SQL
`LIKE %pat%` match used for the name filter). -/
def strContains (s pat : String) : Bool :=
  containsL pat.toList s.toList

/-- The six optional query parameters of `filter_movies`
(`src/app/movies/routers.py`). -/
structure MovieFilter where
  name : Option String
  minImdb : Option ℚ
  maxImdb : Option ℚ
  minPrice : Option ℚ
  maxPrice : Option ℚ
  year : Option Int
deriving Repr

/-- The filter with every parameter absent. -/
def noFilter : MovieFilter :=
  ⟨none, none, none, none, none, none⟩

/-- Modelled from the spec: the conjunctive row predicate of
`filter_movies` in `app/movies/services.py` (absent from the sources;
only its caller in `src/app/movies/routers.py` is present).  Spec
section 4.2: movies matching all supplied predicates; absent parameters
are unconstrained; the name parameter is a partial or full title match. -/
def movieMatches (f : MovieFilter) (m : Movie) : Bool :=
  (match f.name with | none => true | some s => strContains m.name s) &&
  (match f.minImdb with | none => true | some q => decide (q ≤ m.imdb)) &&
  (match f.maxImdb with | none => true | some q => decide (m.imdb ≤ q)) &&
  (match f.minPrice with | none => true | some q => decide (q ≤ m.price)) &&
  (match f.maxPrice with | none => true | some q => decide (m.price ≤ q)) &&
  (match f.year with | none => true | some y => m.year == y)

/-- Modelled from the spec: `filter_movies` of `app/movies/services.py`
(absent from the sources).  Spec section 4.2: returns the movies matching
all supplied predicates (conjunctive filter). -/
def filterMovies (db : DB) (f : MovieFilter) : List Movie :=
  db.movies.filter (movieMatches f)

/-- The payload of POST /movies/ (the MovieCreate schema): a movie without
its id. -/
structure MovieCreate where
  name : String
  imdb : ℚ
  price : ℚ
  year : Int
deriving DecidableEq, Repr

/-- Modelled from the spec: `create_movie` of `app/movies/services.py`
(absent from the sources).  Spec section 4.2: inserts and returns a new
Movie; the id is the store's next auto-increment key. -/
def createMovie (db : DB) (p : MovieCreate) : Movie × DB :=
  let m : Movie := ⟨db.nextMovieId, p.name, p.imdb, p.price, p.year⟩
  (m, { db with movies := db.movies ++ [m], nextMovieId := db.nextMovieId + 1 })

/-- Modelled from the spec: `get_movies` of `app/movies/services.py`
(absent from the sources).  Spec section 4.2: `list_movies(skip, limit)`,
paginated in insertion/id order. -/
def getMovies (db : DB) (skip limit : Nat) : List Movie :=
  (db.movies.drop skip).take limit

/-- Modelled from the spec: `get_movie_by_id` of `app/movies/services.py`
(absent from the sources).  Spec section 4.2: returns the Movie, or
nothing when absent. -/
def getMovieById (db : DB) (mid : Nat) : Option Movie :=
  findMovie db mid

/-- Modelled from the spec: `get_movie_reactions` of
`app/movies/services.py` (absent from the sources).  Spec section 4.2:
aggregate counts of likes and dislikes of the movie; nothing when no
reactions exist for it. -/
def getMovieReactions (db : DB) (mid : Nat) : Option (Nat × Nat) :=
  let rs := db.reactions.filter (fun r => r.movieId == mid)
  if rs.isEmpty then none
  else some (rs.countP (fun r => r.rtype == ReactionType.like),
             rs.countP (fun r => r.rtype == ReactionType.dislike))

/-- Route handler `read_movie` of `src/app/movies/routers.py`
(GET /movies/{movie_id}): 404 when the movie is absent, 200 with the
movie otherwise. -/
def readMovieEndpoint (db : DB) (mid : Nat) : Nat × Option Movie :=
  match getMovieById db mid with
  | none => (404, none)
  | some m => (200, some m)

/-- Route handler `get_reactions` of `src/app/movies/routers.py`
(GET /movies/reactions/{movie_id}): 404 when the service reports no
reactions, 200 with the counts otherwise. -/
def getReactionsEndpoint (db : DB) (mid : Nat) : Nat × Option (Nat × Nat) :=
  match getMovieReactions db mid with
  | none => (404, none)
  | some c => (200, some c)

/-- A segment of a route path pattern: a literal segment or a `{param}`
placeholder. -/
inductive Seg
  | lit (s : String)
  | param
deriving DecidableEq, Repr

/-- Tags for the handlers registered on the movies router, in
`src/app/movies/routers.py`. -/
inductive MoviesHandler
  | filterMoviesH
  | createMovieH
  | readMoviesH
  | readMovieH
  | createReactionH
  | getReactionsH
  | addCommentH
deriving DecidableEq, Repr

/-- HTTP methods used by the movies router. -/
inductive Method
  | get
  | post
deriving DecidableEq, Repr

/-- A registered route: method, path pattern, handler tag. -/
structure Route where
  method : Method
  path : List Seg
  handler : MoviesHandler
deriving Repr

/-- Path-pattern matching: a literal segment must equal the request
segment, a placeholder matches any single segment (the framework's route
matching on a path split into segments). -/
def segsMatch : List Seg → List String → Bool
  | [], [] => true
  | .lit s :: ps, x :: xs => s == x && segsMatch ps xs
  | .param :: ps, _ :: xs => segsMatch ps xs
  | _, _ => false

/-- The movies router's route table, in registration (decorator) order of
`src/app/movies/routers.py`: `filter_movies` and `read_movies` are both
registered on GET /movies/, `filter_movies` first. -/
def moviesRoutes : List Route :=
  [⟨.get, [.lit "movies", .lit ""], .filterMoviesH⟩,
   ⟨.post, [.lit "movies", .lit ""], .createMovieH⟩,
   ⟨.get, [.lit "movies", .lit ""], .readMoviesH⟩,
   ⟨.get, [.lit "movies", .param], .readMovieH⟩,
   ⟨.post, [.lit "movies", .lit "reactions", .lit ""], .createReactionH⟩,
   ⟨.get, [.lit "movies", .lit "reactions", .param], .getReactionsH⟩,
   ⟨.post, [.lit "movies", .lit "comments", .lit ""], .addCommentH⟩]

/-- First-match route dispatch: routes are tried in registration order and
the first one whose method and path match wins (the framework's dispatch
rule for the route table built by `src/main.py`). -/
def firstMatch : List Route → Method → List String → Option MoviesHandler
  | [], _, _ => none
  | r :: rs, m, p =>
      if r.method == m && segsMatch r.path p then some r.handler
      else firstMatch rs m p

/-- A GET /movies/ request's query string: the six filter parameters read
by `filter_movies` together with the `skip`/`limit` parameters declared by
`read_movies` (defaults 0 and 10 in `src/app/movies/routers.py`). -/
structure MoviesQuery where
  filt : MovieFilter
  skip : Option Nat
  limit : Option Nat
deriving Repr

/-- The response body of a GET /movies/ request under the registered route
table: dispatch on the path, then run the dispatched handler on the query
parameters it declares. -/
def handleMoviesRoot (db : DB) (q : MoviesQuery) : List Movie :=
  match firstMatch moviesRoutes .get ["movies", ""] with
  | some .filterMoviesH => filterMovies db q.filt
  | some .readMoviesH => getMovies db (q.skip.getD 0) (q.limit.getD 10)
  | _ => []

/-- Spec section 4.2 in propositional form, for comparison with the
executable filter: the movie matches all supplied predicates, an absent
parameter is unconstrained, the name parameter is a partial or full title
match. -/
def SatAll (f : MovieFilter) (m : Movie) : Prop :=
  (match f.name with | none => True | some s => strContains m.name s = true) ∧
  (match f.minImdb with | none => True | some q => q ≤ m.imdb) ∧
  (match f.maxImdb with | none => True | some q => m.imdb ≤ q) ∧
  (match f.minPrice with | none => True | some q => q ≤ m.price) ∧
  (match f.maxPrice with | none => True | some q => m.price ≤ q) ∧
  (match f.year with | none => True | some y => m.year = y)

/-- Filter `g` supplies every predicate that `f` supplies, with the same
value (so `g` may supply additional ones). -/
abbrev FiltExtends (g f : MovieFilter) : Prop :=
  (f.name = none ∨ g.name = f.name) ∧
  (f.minImdb = none ∨ g.minImdb = f.minImdb) ∧
  (f.maxImdb = none ∨ g.maxImdb = f.maxImdb) ∧
  (f.minPrice = none ∨ g.minPrice = f.minPrice) ∧
  (f.maxPrice = none ∨ g.maxPrice = f.maxPrice) ∧
  (f.year = none ∨ g.year = f.year)

/-! Well-formedness of a store state: cart rows are pairwise distinct (the
(user, movie) uniqueness of spec section 3) and movie primary keys stay
below the auto-increment counter. -/

/-- Cart-row uniqueness: the cart table has no duplicate (user, movie) row. -/
abbrev CartWF (db : DB) : Prop :=
  db.cartItems.Nodup

/-- Movie primary keys are below the auto-increment counter. -/
def MovieIdsWF (db : DB) : Bool :=
  db.movies.all (fun m => decide (m.id < db.nextMovieId))

/-- The movie used by the concrete witness states. -/
def mvDune : Movie :=
  ⟨1, "Dune", 9, 10, 2021⟩

/-- A second movie for the pagination states. -/
def mvAlien : Movie :=
  ⟨2, "Alien", 8, 8, 1979⟩

/-- Concrete state: one movie in the catalog, user 7's cart holds it. -/
def dbOneItem : DB :=
  { movies := [mvDune],
    cartItems := [⟨7, 1⟩],
    orders := [],
    reactions := [],
    nextMovieId := 2,
    nextOrderId := 1 }

/-- Concrete state: one movie in the catalog and an empty cart. -/
def dbEmptyCart : DB :=
  { movies := [mvDune],
    cartItems := [],
    orders := [],
    reactions := [],
    nextMovieId := 2,
    nextOrderId := 1 }

/-- Concrete state: two movies, nothing else. -/
def dbTwoMovies : DB :=
  { movies := [mvDune, mvAlien],
    cartItems := [],
    orders := [],
    reactions := [],
    nextMovieId := 3,
    nextOrderId := 1 }

/-- Concrete state: one movie with one like reaction. -/
def dbLiked : DB :=
  { movies := [mvDune],
    cartItems := [],
    orders := [],
    reactions := [⟨1, .like⟩],
    nextMovieId := 2,
    nextOrderId := 1 }

/-- A filter supplying only a minimum IMDB rating. -/
def fMin : MovieFilter :=
  ⟨none, some 8, none, none, none, none⟩

/-- The same filter with a year constraint supplied in addition. -/
def fMinYear : MovieFilter :=
  ⟨none, some 8, none, none, none, some 2021⟩

/-- A row satisfies `isItem u mid` exactly when it is the row `⟨u, mid⟩`. -/
theorem isItem_eq_beq (u mid : Nat) (ci : CartItem) :
    isItem u mid ci = (ci == (⟨u, mid⟩ : CartItem)) := by
  cases ci with
  | mk a b =>
      rw [Bool.eq_iff_iff]
      simp [isItem, CartItem.mk.injEq]

/-- Clearing a user's rows leaves that user's cart empty. -/
theorem filter_user_cleared (l : List CartItem) (u : Nat) :
    (l.filter (fun ci => !(ci.userId == u))).filter (fun ci => ci.userId == u) = [] := by
  rw [List.filter_filter]
  simp

/-- A non-empty cart makes `checkoutCart` succeed with the cleared state and
the appended order. -/
theorem checkoutCart_ok (db : DB) (u : Nat) (h : getCart db u ≠ []) :
    checkoutCart db u = .ok
      { db with
        cartItems := db.cartItems.filter (fun ci => !(ci.userId == u)),
        orders := db.orders ++ [⟨db.nextOrderId, u, (getCart db u).map CartItem.movieId⟩],
        nextOrderId := db.nextOrderId + 1 } := by
  have hne : (getCart db u).isEmpty = false := by
    cases hgc : getCart db u with
    | nil => exact absurd hgc h
    | cons a l => simp
  simp [checkoutCart, hne]

/-- Claim C1: for every user whose cart is non-empty, checkout empties that
user's cart, appends exactly one Order whose referenced movies are exactly
the pre-checkout cart item set, and the endpoint returns 200 with a message
body. -/
theorem checkout_nonempty_spec (db : DB) (u : Nat) (h : getCart db u ≠ []) :
    (checkoutEndpoint db u).1 = 200 ∧
    (checkoutEndpoint db u).2.1 = some "Purchase successful" ∧
    getCart (checkoutEndpoint db u).2.2 u = [] ∧
    (checkoutEndpoint db u).2.2.orders =
      db.orders ++ [⟨db.nextOrderId, u, (getCart db u).map CartItem.movieId⟩] := by
  have hck := checkoutCart_ok db u h
  refine ⟨?_, ?_, ?_, ?_⟩ <;>
    simp [checkoutEndpoint, hck, getCart, filter_user_cleared db.cartItems u]

/-- Witness for claim C1 at the concrete state `dbOneItem` and user 7. -/
theorem checkout_nonempty_witness :
    getCart dbOneItem 7 ≠ [] ∧
    ((checkoutEndpoint dbOneItem 7).1 = 200 ∧
     (checkoutEndpoint dbOneItem 7).2.1 = some "Purchase successful" ∧
     getCart (checkoutEndpoint dbOneItem 7).2.2 7 = [] ∧
     (checkoutEndpoint dbOneItem 7).2.2.orders =
       dbOneItem.orders ++
         [⟨dbOneItem.nextOrderId, 7, (getCart dbOneItem 7).map CartItem.movieId⟩]) :=
  ⟨by decide, checkout_nonempty_spec dbOneItem 7 (by decide)⟩

/-- Claim C2: checkout fails with InvalidState exactly when the user's cart
is empty, and a second checkout right after a successful one fails with
InvalidState. -/
theorem checkout_invalid_iff_empty (db : DB) (u : Nat) :
    (checkoutCart db u = .error .invalidState ↔ getCart db u = []) ∧
    (getCart db u ≠ [] →
      checkoutCart (checkoutEndpoint db u).2.2 u = .error .invalidState) := by
  constructor
  · by_cases h : getCart db u = []
    · have hemp : (getCart db u).isEmpty = true := by rw [h]; simp
      simp [checkoutCart, hemp, h]
    · have hck := checkoutCart_ok db u h
      simp [hck, h]
  · intro h
    have hck := checkoutCart_ok db u h
    have hempty : getCart (checkoutEndpoint db u).2.2 u = [] := by
      simp [checkoutEndpoint, hck, getCart, filter_user_cleared db.cartItems u]
    have hemp : (getCart (checkoutEndpoint db u).2.2 u).isEmpty = true := by
      rw [hempty]; simp
    simp [checkoutCart, hemp]

/-- Witness for claim C2 at the concrete state `dbOneItem` and user 7. -/
theorem checkout_invalid_iff_empty_witness :
    ((checkoutCart dbOneItem 7 = .error .invalidState ↔ getCart dbOneItem 7 = []) ∧
     (getCart dbOneItem 7 ≠ [] →
       checkoutCart (checkoutEndpoint dbOneItem 7).2.2 7 = .error .invalidState)) :=
  checkout_invalid_iff_empty dbOneItem 7

/-- Claim C3: `add_item` fails with NotFound (HTTP 404) when the movie id
references no existing Movie, and otherwise succeeds with HTTP 200,
returning the created item, which is then present in the cart table. -/
theorem addItem_spec (db : DB) (u mid : Nat) :
    (findMovie db mid = none →
      addItemToCart db u mid = .error .notFound ∧
      addItemEndpoint db u mid = (404, none, db)) ∧
    (findMovie db mid ≠ none →
      (addItemEndpoint db u mid).1 = 200 ∧
      (addItemEndpoint db u mid).2.1 = some ⟨u, mid⟩ ∧
      (⟨u, mid⟩ : CartItem) ∈ (addItemEndpoint db u mid).2.2.cartItems) := by
  constructor
  · intro hf
    simp [addItemToCart, addItemEndpoint, statusOfError, hf]
  · intro hf
    cases hm : findMovie db mid with
    | none => exact absurd hm hf
    | some m =>
        by_cases ha : db.cartItems.any (isItem u mid) = true
        · have hmem : (⟨u, mid⟩ : CartItem) ∈ db.cartItems := by
            rcases List.any_eq_true.mp ha with ⟨ci, hci, hit⟩
            rcases ci with ⟨a, b⟩
            simp only [isItem, Bool.and_eq_true, beq_iff_eq] at hit
            rcases hit with ⟨h1, h2⟩
            rwa [h1, h2] at hci
          simp [addItemToCart, addItemEndpoint, hm, ha, hmem]
        · simp [addItemToCart, addItemEndpoint, hm, ha]

/-- Witness for claim C3 at `dbEmptyCart`: movie 1 exists for user 7 (success
branch) and movie 5 does not (NotFound branch). -/
theorem addItem_spec_witness :
    (findMovie dbEmptyCart 5 = none ∧
     addItemToCart dbEmptyCart 7 5 = .error .notFound ∧
     addItemEndpoint dbEmptyCart 7 5 = (404, none, dbEmptyCart)) ∧
    (findMovie dbEmptyCart 1 ≠ none ∧
     (addItemEndpoint dbEmptyCart 7 1).1 = 200 ∧
     (addItemEndpoint dbEmptyCart 7 1).2.1 = some ⟨7, 1⟩ ∧
     (⟨7, 1⟩ : CartItem) ∈ (addItemEndpoint dbEmptyCart 7 1).2.2.cartItems) :=
  ⟨⟨by decide, (addItem_spec dbEmptyCart 7 5).1 (by decide)⟩,
   ⟨by decide, (addItem_spec dbEmptyCart 7 1).2 (by decide)⟩⟩

/-- Counting the rows of a (user, movie) pair is counting that literal row. -/
theorem countP_isItem_eq_count (l : List CartItem) (u mid : Nat) :
    l.countP (isItem u mid) = l.count (⟨u, mid⟩ : CartItem) := by
  unfold List.count
  exact List.countP_congr (fun ci _ => by rw [isItem_eq_beq])

/-- Claim C4: when the add succeeds (HTTP 200) on a well-formed cart table,
the user's cart afterwards holds a row for that movie exactly once, duplicate
adds included. -/
theorem addItem_unique (db : DB) (u mid : Nat) (hwf : CartWF db)
    (h : (addItemEndpoint db u mid).1 = 200) :
    ((getCart (addItemEndpoint db u mid).2.2 u).countP
      (fun ci => ci.movieId == mid)) = 1 := by
  have hcount : ∀ l : List CartItem,
      (l.filter (fun ci => ci.userId == u)).countP (fun ci => ci.movieId == mid) =
        l.countP (isItem u mid) := by
    intro l
    rw [List.countP_filter]
    exact List.countP_congr (fun ci _ => by
      simp [isItem, Bool.and_comm])
  cases hm : findMovie db mid with
  | none => simp [addItemEndpoint, addItemToCart, statusOfError, hm] at h
  | some m =>
      by_cases ha : db.cartItems.any (isItem u mid) = true
      · have hmem : (⟨u, mid⟩ : CartItem) ∈ db.cartItems := by
          rcases List.any_eq_true.mp ha with ⟨ci, hci, hit⟩
          rcases ci with ⟨a, b⟩
          simp only [isItem, Bool.and_eq_true, beq_iff_eq] at hit
          rcases hit with ⟨h1, h2⟩
          rwa [h1, h2] at hci
        have hle : db.cartItems.count (⟨u, mid⟩ : CartItem) ≤ 1 :=
          List.nodup_iff_count_le_one.mp hwf _
        have hge : 1 ≤ db.cartItems.count (⟨u, mid⟩ : CartItem) :=
          List.count_pos_iff.mpr hmem
        simp only [addItemEndpoint, addItemToCart, hm, ha, if_pos]
        rw [getCart, hcount, countP_isItem_eq_count]
        exact Nat.le_antisymm hle hge
      · have hzero : db.cartItems.countP (isItem u mid) = 0 :=
          List.countP_eq_zero.mpr (by
            intro ci hci hit
            exact ha (List.any_eq_true.mpr ⟨ci, hci, hit⟩))
        simp only [addItemEndpoint, addItemToCart, hm, ha, if_neg, Bool.not_eq_true]
        rw [getCart, hcount, List.countP_append, hzero]
        simp [isItem]

/-- Witness for claim C4 at `dbEmptyCart`: user 7 adds movie 1 to an empty,
well-formed cart. -/
theorem addItem_unique_witness :
    CartWF dbEmptyCart ∧
    (addItemEndpoint dbEmptyCart 7 1).1 = 200 ∧
    ((getCart (addItemEndpoint dbEmptyCart 7 1).2.2 7).countP
      (fun ci => ci.movieId == 1)) = 1 :=
  ⟨by decide, by decide, addItem_unique dbEmptyCart 7 1 (by decide) (by decide)⟩

/-- Claim C5: `remove_item` fails with NotFound and leaves the state
unchanged when no matching cart row exists, and deletes the row and returns
204 when one does. -/
theorem removeItem_spec (db : DB) (u mid : Nat) :
    (db.cartItems.any (isItem u mid) = false →
      removeItemFromCart db u mid = .error .notFound ∧
      removeItemEndpoint db u mid = (404, db)) ∧
    (db.cartItems.any (isItem u mid) = true →
      (removeItemEndpoint db u mid).1 = 204 ∧
      (removeItemEndpoint db u mid).2.cartItems.any (isItem u mid) = false) := by
  constructor
  · intro ha
    simp [removeItemFromCart, removeItemEndpoint, statusOfError, ha]
  · intro ha
    refine ⟨by simp [removeItemFromCart, removeItemEndpoint, ha], ?_⟩
    simp only [removeItemFromCart, removeItemEndpoint, ha, if_pos]
    rw [Bool.eq_false_iff]
    intro hcontra
    rcases List.any_eq_true.mp hcontra with ⟨ci, hci, hit⟩
    rcases List.mem_filter.mp hci with ⟨_, hkeep⟩
    rw [hit] at hkeep
    simp at hkeep

/-- Witness for claim C5 at `dbOneItem`: user 7's cart holds movie 1 (success
branch) and not movie 5 (NotFound branch). -/
theorem removeItem_spec_witness :
    (dbOneItem.cartItems.any (isItem 7 5) = false ∧
     removeItemFromCart dbOneItem 7 5 = .error .notFound ∧
     removeItemEndpoint dbOneItem 7 5 = (404, dbOneItem)) ∧
    (dbOneItem.cartItems.any (isItem 7 1) = true ∧
     (removeItemEndpoint dbOneItem 7 1).1 = 204 ∧
     (removeItemEndpoint dbOneItem 7 1).2.cartItems.any (isItem 7 1) = false) :=
  ⟨⟨by decide, (removeItem_spec dbOneItem 7 5).1 (by decide)⟩,
   ⟨by decide, (removeItem_spec dbOneItem 7 1).2 (by decide)⟩⟩

/-- The executable row predicate decides the propositional spec of the
conjunctive filter. -/
theorem movieMatches_iff (f : MovieFilter) (m : Movie) :
    movieMatches f m = true ↔ SatAll f m := by
  rcases f with ⟨n, a, b, c, d, y⟩
  simp only [movieMatches, SatAll, Bool.and_eq_true]
  cases n <;> cases a <;> cases b <;> cases c <;> cases d <;> cases y <;>
    simp [and_assoc]

/-- A filter that supplies more predicates only constrains further. -/
theorem satAll_mono (g f : MovieFilter) (m : Movie) (hgf : FiltExtends g f)
    (h : SatAll g m) : SatAll f m := by
  obtain ⟨e1, e2, e3, e4, e5, e6⟩ := hgf
  obtain ⟨s1, s2, s3, s4, s5, s6⟩ := h
  refine ⟨?_, ?_, ?_, ?_, ?_, ?_⟩
  · rcases e1 with h1 | h1
    · rw [h1]; trivial
    · exact h1 ▸ s1
  · rcases e2 with h2 | h2
    · rw [h2]; trivial
    · exact h2 ▸ s2
  · rcases e3 with h3 | h3
    · rw [h3]; trivial
    · exact h3 ▸ s3
  · rcases e4 with h4 | h4
    · rw [h4]; trivial
    · exact h4 ▸ s4
  · rcases e5 with h5 | h5
    · rw [h5]; trivial
    · exact h5 ▸ s5
  · rcases e6 with h6 | h6
    · rw [h6]; trivial
    · exact h6 ▸ s6

/-- Claim C6: with no parameters the filter returns the full catalog, the
result is exactly the movies satisfying all supplied predicates, and
supplying additional filters never enlarges the result. -/
theorem filterMovies_spec (db : DB) (f g : MovieFilter) (m : Movie)
    (hgf : FiltExtends g f) :
    filterMovies db noFilter = db.movies ∧
    (m ∈ filterMovies db f ↔ m ∈ db.movies ∧ SatAll f m) ∧
    List.Sublist (filterMovies db g) (filterMovies db f) := by
  refine ⟨?_, ?_, ?_⟩
  · exact List.filter_eq_self.mpr (fun a _ => rfl)
  · rw [filterMovies, List.mem_filter, movieMatches_iff]
  · exact List.monotone_filter_right _ (fun a ha =>
      (movieMatches_iff f a).mpr
        (satAll_mono g f a hgf ((movieMatches_iff g a).mp ha)))

/-- Witness for claim C6: the min-rating filter and its year-constrained
extension on the one-movie catalog. -/
theorem filterMovies_spec_witness :
    FiltExtends fMinYear fMin ∧
    (filterMovies dbEmptyCart noFilter = dbEmptyCart.movies ∧
     (mvDune ∈ filterMovies dbEmptyCart fMin ↔
       mvDune ∈ dbEmptyCart.movies ∧ SatAll fMin mvDune) ∧
     List.Sublist (filterMovies dbEmptyCart fMinYear) (filterMovies dbEmptyCart fMin)) :=
  ⟨by decide, filterMovies_spec dbEmptyCart fMin fMinYear mvDune (by decide)⟩

/-- Claim C7: reading back the id returned by create yields a movie whose
fields equal the payload, over HTTP a 200 with that movie, and reading an id
that references no movie yields 404. -/
theorem create_get_roundtrip (db : DB) (p : MovieCreate) (i : Nat)
    (hwf : MovieIdsWF db = true)
    (hi : db.movies.all (fun m2 => !(m2.id == i)) = true) :
    getMovieById (createMovie db p).2 (createMovie db p).1.id =
      some (createMovie db p).1 ∧
    (createMovie db p).1.name = p.name ∧
    (createMovie db p).1.imdb = p.imdb ∧
    (createMovie db p).1.price = p.price ∧
    (createMovie db p).1.year = p.year ∧
    readMovieEndpoint (createMovie db p).2 (createMovie db p).1.id =
      (200, some (createMovie db p).1) ∧
    readMovieEndpoint db i = (404, none) := by
  have hnone : db.movies.find? (fun m2 => m2.id == db.nextMovieId) = none := by
    rw [List.find?_eq_none]
    intro x hx
    have hlt := List.all_eq_true.mp hwf x hx
    simp only [decide_eq_true_eq] at hlt
    simp only [beq_iff_eq]
    omega
  have hget : getMovieById (createMovie db p).2 (createMovie db p).1.id =
      some (createMovie db p).1 := by
    simp only [getMovieById, findMovie, createMovie, List.find?_append, hnone,
      Option.or, List.find?]
    simp
  have hmiss : findMovie db i = none := by
    rw [findMovie, List.find?_eq_none]
    intro x hx
    have := List.all_eq_true.mp hi x hx
    simpa using this
  exact ⟨hget, rfl, rfl, rfl, rfl,
    by simp [readMovieEndpoint, hget],
    by simp [readMovieEndpoint, getMovieById, hmiss]⟩

/-- Witness for claim C7: creating a second movie in the one-movie catalog
and probing the unused id 5. -/
theorem create_get_roundtrip_witness :
    MovieIdsWF dbEmptyCart = true ∧
    dbEmptyCart.movies.all (fun m2 => !(m2.id == 5)) = true ∧
    (getMovieById (createMovie dbEmptyCart ⟨"Alien", 8, 8, 1979⟩).2
        (createMovie dbEmptyCart ⟨"Alien", 8, 8, 1979⟩).1.id =
      some (createMovie dbEmptyCart ⟨"Alien", 8, 8, 1979⟩).1 ∧
     (createMovie dbEmptyCart ⟨"Alien", 8, 8, 1979⟩).1.name = "Alien" ∧
     (createMovie dbEmptyCart ⟨"Alien", 8, 8, 1979⟩).1.imdb = 8 ∧
     (createMovie dbEmptyCart ⟨"Alien", 8, 8, 1979⟩).1.price = 8 ∧
     (createMovie dbEmptyCart ⟨"Alien", 8, 8, 1979⟩).1.year = 1979 ∧
     readMovieEndpoint (createMovie dbEmptyCart ⟨"Alien", 8, 8, 1979⟩).2
         (createMovie dbEmptyCart ⟨"Alien", 8, 8, 1979⟩).1.id =
       (200, some (createMovie dbEmptyCart ⟨"Alien", 8, 8, 1979⟩).1) ∧
     readMovieEndpoint dbEmptyCart 5 = (404, none)) :=
  ⟨by decide, by decide,
   create_get_roundtrip dbEmptyCart ⟨"Alien", 8, 8, 1979⟩ 5
     (by decide) (by decide)⟩

/-- Counterexample to claim C8 as stated: GET /movies/ is dispatched to
`filter_movies`, so with two movies in the catalog a request supplying
skip = 1 and limit = 10 returns both movies instead of the paginated tail
that `list_movies` would give. -/
theorem listMovies_route_counterexample :
    firstMatch moviesRoutes .get ["movies", ""] = some .filterMoviesH ∧
    handleMoviesRoot dbTwoMovies ⟨noFilter, some 1, some 10⟩ = [mvDune, mvAlien] ∧
    getMovies dbTwoMovies 1 10 = [mvAlien] ∧
    handleMoviesRoot dbTwoMovies ⟨noFilter, some 1, some 10⟩ ≠
      getMovies dbTwoMovies 1 10 := by
  refine ⟨by decide, by decide, by decide, by decide⟩

/-- Claim C8 (amended): pagination of the list-movies service function: the
result has at most `limit` movies, is an in-order sublist of the catalog,
and its i-th movie is the catalog's (skip+i)-th. -/
theorem getMovies_pagination (db : DB) (skip limit i : Nat) (h : i < limit) :
    (getMovies db skip limit).length ≤ limit ∧
    List.Sublist (getMovies db skip limit) db.movies ∧
    (getMovies db skip limit)[i]? = db.movies[skip + i]? := by
  refine ⟨?_, ?_, ?_⟩
  · rw [getMovies, List.length_take]
    exact min_le_left _ _
  · exact (List.take_sublist _ _).trans (List.drop_sublist _ _)
  · rw [getMovies, List.getElem?_take, if_pos h, List.getElem?_drop]

/-- Witness for the amended claim C8 on the two-movie catalog with skip 1,
limit 2, index 0. -/
theorem getMovies_pagination_witness :
    0 < 2 ∧
    ((getMovies dbTwoMovies 1 2).length ≤ 2 ∧
     List.Sublist (getMovies dbTwoMovies 1 2) dbTwoMovies.movies ∧
     (getMovies dbTwoMovies 1 2)[0]? = dbTwoMovies.movies[1 + 0]?) :=
  ⟨by decide, getMovies_pagination dbTwoMovies 1 2 0 (by decide)⟩

/-- Claim C9: the reactions endpoint returns 404 exactly when no reactions
exist for the movie, and 200 with the aggregate like/dislike counts when
some do. -/
theorem getReactions_spec (db : DB) (mid : Nat) :
    (getReactionsEndpoint db mid = (404, none) ↔
      db.reactions.all (fun r => !(r.movieId == mid)) = true) ∧
    (db.reactions.any (fun r => r.movieId == mid) = true →
      getReactionsEndpoint db mid =
        (200, some
          ((db.reactions.filter (fun r => r.movieId == mid)).countP
              (fun r => r.rtype == ReactionType.like),
           (db.reactions.filter (fun r => r.movieId == mid)).countP
              (fun r => r.rtype == ReactionType.dislike)))) := by
  have hiff : db.reactions.all (fun r => !(r.movieId == mid)) = true ↔
      db.reactions.filter (fun r => r.movieId == mid) = [] := by
    simp [List.all_eq_true, List.filter_eq_nil_iff]
  by_cases hl : db.reactions.filter (fun r => r.movieId == mid) = []
  · have hemp : (db.reactions.filter (fun r => r.movieId == mid)).isEmpty = true := by
      rw [hl]; rfl
    constructor
    · simp [getReactionsEndpoint, getMovieReactions, hemp, hiff, hl]
    · intro ha
      rcases List.any_eq_true.mp ha with ⟨r, hr, hrm⟩
      have hmem : r ∈ db.reactions.filter (fun r => r.movieId == mid) :=
        List.mem_filter.mpr ⟨hr, hrm⟩
      rw [hl] at hmem
      simp at hmem
  · have hemp : (db.reactions.filter (fun r => r.movieId == mid)).isEmpty = false := by
      rw [Bool.eq_false_iff]
      intro hcontra
      exact hl (List.isEmpty_iff.mp hcontra)
    constructor
    · constructor
      · intro hcontra
        simp [getReactionsEndpoint, getMovieReactions, hemp] at hcontra
      · intro hall
        exact absurd (hiff.mp hall) hl
    · intro _
      simp [getReactionsEndpoint, getMovieReactions, hemp]

/-- Witness for claim C9 on the state where movie 1 has one like. -/
theorem getReactions_spec_witness :
    dbLiked.reactions.any (fun r => r.movieId == 1) = true ∧
    getReactionsEndpoint dbLiked 1 =
      (200, some
        ((dbLiked.reactions.filter (fun r => r.movieId == 1)).countP
            (fun r => r.rtype == ReactionType.like),
         (dbLiked.reactions.filter (fun r => r.movieId == 1)).countP
            (fun r => r.rtype == ReactionType.dislike))) :=
  ⟨by decide, (getReactions_spec dbLiked 1).2 (by decide)⟩

/-- Claim C10: GET /movies/ dispatches to `filter_movies` (registered first
on the duplicated path), the response is exactly the filter response, the
skip and limit parameters never change any response, and the `read_movies`
handler is unreachable for every request. -/
theorem moviesRoot_dispatch (db : DB) (q q2 : MoviesQuery) (m : Method)
    (p : List String) (hq : q2.filt = q.filt) :
    firstMatch moviesRoutes .get ["movies", ""] = some .filterMoviesH ∧
    handleMoviesRoot db q = filterMovies db q.filt ∧
    handleMoviesRoot db q2 = handleMoviesRoot db q ∧
    firstMatch moviesRoutes m p ≠ some .readMoviesH := by
  refine ⟨by decide, rfl, ?_, ?_⟩
  · show handleMoviesRoot db q2 = handleMoviesRoot db q
    have h2 : handleMoviesRoot db q2 = filterMovies db q2.filt := rfl
    have h1 : handleMoviesRoot db q = filterMovies db q.filt := rfl
    rw [h1, h2, hq]
  · cases m <;>
      · dsimp only [firstMatch, moviesRoutes]
        split_ifs <;> simp_all

/-- Witness for claim C10: two queries sharing the empty filter, one with
skip = 1 and limit = 10 supplied, and a probe request on the reactions
path. -/
theorem moviesRoot_dispatch_witness :
    (⟨noFilter, some 1, some 10⟩ : MoviesQuery).filt =
      (⟨noFilter, none, none⟩ : MoviesQuery).filt ∧
    (firstMatch moviesRoutes .get ["movies", ""] = some .filterMoviesH ∧
     handleMoviesRoot dbTwoMovies ⟨noFilter, none, none⟩ =
       filterMovies dbTwoMovies noFilter ∧
     handleMoviesRoot dbTwoMovies ⟨noFilter, some 1, some 10⟩ =
       handleMoviesRoot dbTwoMovies ⟨noFilter, none, none⟩ ∧
     firstMatch moviesRoutes .get ["movies", "reactions", "3"] ≠
       some .readMoviesH) :=
  ⟨rfl, moviesRoot_dispatch dbTwoMovies ⟨noFilter, none, none⟩
    ⟨noFilter, some 1, some 10⟩ .get ["movies", "reactions", "3"] rfl⟩

end Cinema
